import Mathlib

/-!
Shallow embedding of `src/weatherchecker.py` (a small Streamlit weather app)
and verification of its specification claims.

Modelling choices:
* Python floats that only flow through comparisons and display are modelled
  as `ℚ` (exact for every literal appearing in the claims).
* JSON dictionaries obtained from the two HTTP endpoints are modelled as
  structures whose fields are `Option`-valued, mirroring the pervasive use of
  `dict.get` in the source.
* The outcome of an HTTP GET (the only effect) is an explicit oracle value:
  either a transport-level failure (`requests.RequestException`), or a
  response carrying a status code and an optional parsed body (`none` models
  a JSON-decoding failure of `r.json()`, which in `requests` is a
  `RequestException` subclass and hence caught by the same handler).
* The body of the `if submitted:` block is embedded as a function from the
  user input and the two network oracles to the list of UI events it emits,
  with `st.stop()` modelled as cutting the event list short.
-/

namespace WeatherChecker

/-- The static weather-code table, transcribed from `WEATHERCODE_TEXT`
(lines 14-27 of the source) as an association list in source order. -/
def WEATHERCODE_TEXT : List (Int × String) :=
  [ (0, "Clear")
  , (1, "Mainly clear"), (2, "Partly cloudy"), (3, "Overcast")
  , (45, "Fog"), (48, "Depositing rime fog")
  , (51, "Light drizzle"), (53, "Moderate drizzle"), (55, "Dense drizzle")
  , (56, "Freezing drizzle (light)"), (57, "Freezing drizzle (dense)")
  , (61, "Light rain"), (63, "Moderate rain"), (65, "Heavy rain")
  , (66, "Freezing rain (light)"), (67, "Freezing rain (heavy)")
  , (71, "Light snow"), (73, "Moderate snow"), (75, "Heavy snow")
  , (77, "Snow grains")
  , (80, "Rain showers (slight)"), (81, "Rain showers (moderate)"), (82, "Rain showers (violent)")
  , (85, "Snow showers (slight)"), (86, "Snow showers (heavy)")
  , (95, "Thunderstorm (slight/moderate)"), (96, "Thunderstorm with slight hail")
  , (99, "Thunderstorm with heavy hail") ]

/-- Line 101, `WEATHERCODE_TEXT.get(code, "N/A")`, specialised to a
present integer key. -/
def lookupWeathercode (code : Int) : String :=
  (WEATHERCODE_TEXT.lookup code).getD "N/A"

/-- Line 101, `WEATHERCODE_TEXT.get(code, "N/A")`, where the key
`code = cw.get("weathercode")` may be `None`; `None` is not a key of the
table, so it yields the default. -/
def weatherDesc (code : Option Int) : String :=
  match code with
  | some c => lookupWeathercode c
  | none => "N/A"

/-- Cold band colour constant (line 106). -/
def coldColor : String := "#b3daff"

/-- Mild band colour constant (line 108). -/
def mildColor : String := "#d4f1c5"

/-- Hot band colour constant (line 110). -/
def hotColor : String := "#ffb3b3"

/-- Neutral default band colour constant (line 112). -/
def defaultColor : String := "#ffffff"

/-- The dynamic background-colour derivation (lines 104-112):
nested `if` on the current temperature, defaulting to white when the
temperature is `None`. -/
def bgColor (temp_now : Option ℚ) : String :=
  match temp_now with
  | some t => if t < 10 then coldColor else if t < 25 then mildColor else hotColor
  | none => defaultColor

/-- ASCII whitespace characters stripped by the Python method `str.strip()`. -/
def isPySpace (c : Char) : Bool :=
  c = ' ' || c = '\t' || c = '\n' || c = '\r' || c = '\x0b' || c = '\x0c'

/-- The Python expression `city_input.strip()` (lines 75 and 80). -/
def pyStrip (s : String) : String :=
  String.mk (((s.data.dropWhile isPySpace).reverse.dropWhile isPySpace).reverse)

/-- Outcome of one `requests.get` call, as seen by the caller:
either a transport-level failure (`requests.RequestException` raised before a
response exists), or a response with a status code and an optional parsed
body (`none` = `r.json()` fails to decode, also a `RequestException`). -/
inductive HttpOutcome (β : Type) where
  | transportError : HttpOutcome β
  | response (status : Nat) (body : Option β) : HttpOutcome β
deriving DecidableEq

/-- One element of the `results` array of the geocoding response; every field is
read with `item.get`, hence optional (lines 42-48). -/
structure GeoItem where
  name : Option String
  country : Option String
  admin1 : Option String
  latitude : Option ℚ
  longitude : Option ℚ
deriving DecidableEq

/-- The parsed geocoding response body: `data.get("results")` may be absent
(`none`) or an array (line 39). -/
structure GeoBody where
  results : Option (List GeoItem)
deriving DecidableEq

/-- The dictionary returned by `geocode_city` on success (lines 42-48). -/
structure Place where
  name : Option String
  country : Option String
  admin1 : Option String
  lat : Option ℚ
  lon : Option ℚ
deriving DecidableEq

/-- The exception raised inside the `try` block of `geocode_city` /
`fetch_weather`, when one is raised; all are `requests.RequestException`s. -/
inductive ReqError where
  | transport
  | httpStatus (code : Nat)
  | jsonDecode
deriving DecidableEq

/-- The call `r.raise_for_status()` raises `HTTPError` exactly for 4xx/5xx codes. -/
def statusRaises (status : Nat) : Prop := 400 ≤ status ∧ status < 600

instance (status : Nat) : Decidable (statusRaises status) := by
  unfold statusRaises; infer_instance

/-- The `try` block of `geocode_city` (lines 35-48) as an `Except`
computation: each raise point becomes an `error`, the normal returns become
`ok`. `not data.get("results")` is true when the key is absent or the array
is empty. -/
def geocodeAttempt (o : HttpOutcome GeoBody) : Except ReqError (Option Place) :=
  match o with
  | .transportError => .error .transport
  | .response status body =>
    if statusRaises status then .error (.httpStatus status)
    else
      match body with
      | none => .error .jsonDecode
      | some data =>
        .ok (match data.results with
          | none => none
          | some [] => none
          | some (item :: _) =>
            some ⟨item.name, item.country, item.admin1, item.latitude, item.longitude⟩)

/-- Function `geocode_city` (lines 32-50): the `try` body with
`except requests.RequestException: return None`. The `name` argument only
parameterises the outbound request, which the oracle `o` answers. -/
def geocode_city (name : String) (o : HttpOutcome GeoBody) : Option Place :=
  match name, geocodeAttempt o with
  | _, .ok v => v
  | _, .error _ => none

/-- The `current_weather` object of the forecast payload; every field is
read with `cw.get`, hence optional (lines 97-100). -/
structure CurrentWeather where
  temperature : Option ℚ
  windspeed : Option ℚ
  winddirection : Option ℚ
  weathercode : Option Int
deriving DecidableEq

/-- A timestamp as produced by `pd.to_datetime` from the ISO strings of the
provider; pandas guarantees in-range fields (month 1-12, and so on). -/
structure Timestamp where
  year : Nat
  month : Nat
  day : Nat
  hour : Nat
  minute : Nat
deriving DecidableEq

/-- The `hourly` object of the forecast payload (lines 136-139): `time` and
`temperature_2m` are read with a `[]` default, `precipitation_probability`
with a `None` default; individual probability entries may be JSON `null`. -/
structure Hourly where
  time : Option (List Timestamp)
  temperature_2m : Option (List ℚ)
  precipitation_probability : Option (List (Option ℚ))
deriving DecidableEq

/-- The parsed forecast response body (line 65 returns it unchanged). -/
structure WeatherPayload where
  current_weather : Option CurrentWeather
  hourly : Option Hourly
deriving DecidableEq

/-- Function `fetch_weather` (lines 52-67): returns `r.json()` unchanged when neither
`raise_for_status` nor JSON decoding raises; any `RequestException` is
converted to `None`. `lat`/`lon` only parameterise the outbound request,
which the oracle `o` answers. -/
def fetch_weather (lat lon : Option ℚ) (o : HttpOutcome WeatherPayload) :
    Option WeatherPayload :=
  match lat, lon, o with
  | _, _, .transportError => none
  | _, _, .response status body =>
    if statusRaises status then none else body

/-- The character for a single decimal digit. -/
def digitChar (n : Nat) : Char := Char.ofNat (48 + n % 10)

/-- A zero-padded two-digit field of `strftime` (`%m`, `%d`, `%H`, `%M`);
exact for the in-range values a `datetime` can hold. -/
def pad2 (n : Nat) : String := String.mk [digitChar (n / 10), digitChar n]

/-- The zero-padded four-digit `%Y` field of `strftime`; exact for the years
a pandas datetime can hold. -/
def pad4 (n : Nat) : String :=
  String.mk [digitChar (n / 1000), digitChar (n / 100), digitChar (n / 10), digitChar n]

/-- The formatting step `t.strftime("%Y-%m-%d %H:%M")` (line 149). -/
def strftimeYmdHM (t : Timestamp) : String :=
  pad4 t.year ++ "-" ++ pad2 t.month ++ "-" ++ pad2 t.day ++ " "
    ++ pad2 t.hour ++ ":" ++ pad2 t.minute

/-- The rows of `df_24` (lines 141-144): the DataFrame pairs `times` with
`temps` (and, when present, the `precipitation_probability` column), then
`head(24)` keeps the first 24 rows. -/
def df_24 (hourly : Hourly) : List (Timestamp × ℚ × Option ℚ) :=
  let times := hourly.time.getD []
  let temps := hourly.temperature_2m.getD []
  match hourly.precipitation_probability with
  | none => ((times.zip temps).map (fun p => (p.1, p.2, (none : Option ℚ)))).take 24
  | some pops =>
    (((times.zip temps).zip pops).map (fun p => (p.1.1, p.1.2, p.2))).take 24

/-- The series plotted by `st.line_chart(df_24.set_index("time")["temperature_2m"])`
(line 146). -/
def chartSeries (hourly : Hourly) : List ℚ := (df_24 hourly).map (fun r => r.2.1)

/-- One row of `nice_table` after renaming: "Local time", "Temp (°C)",
"Rain chance (%)" (lines 148-156). -/
structure Row where
  localTime : String
  tempC : ℚ
  rainChance : Option ℚ
deriving DecidableEq

/-- The table `nice_table` (lines 148-156): `df_24` with the `time` column formatted
as `"%Y-%m-%d %H:%M"`; when `precipitation_probability` was absent, the
column is created and filled with `None` (lines 150-151). -/
def niceTable (hourly : Hourly) : List Row :=
  (df_24 hourly).map (fun r => ⟨strftimeYmdHM r.1, r.2.1, r.2.2⟩)

/-- The empty dict `{}` substituted for a missing `current_weather` (line 96). -/
def emptyCW : CurrentWeather := ⟨none, none, none, none⟩

/-- Rendering of one numeric metric (lines 129-131): the value itself when
present, an em-dash when `None`. Numeric rendering is abstracted to the
representation of the embedding type `ℚ`. -/
def showNumOpt (v : Option ℚ) : String :=
  match v with
  | some x => toString x
  | none => "—"

/-- The values derived for the current-weather section. -/
structure CurrentDisplay where
  bg : String
  tempMetric : String
  windMetric : String
  windDirMetric : String
  skyMetric : String
deriving DecidableEq

/-- The current-weather display step (lines 96-132): `data.get("current_weather")
or` the empty dict, then each field read with `cw.get`, the description via
the table lookup, the background via the banding, and one rendered string per
metric. -/
def currentDisplay (data : WeatherPayload) : CurrentDisplay :=
  let cw := data.current_weather.getD emptyCW
  { bg := bgColor cw.temperature
  , tempMetric := showNumOpt cw.temperature
  , windMetric := showNumOpt cw.windspeed
  , windDirMetric := showNumOpt cw.winddirection
  , skyMetric := weatherDesc cw.weathercode }

/-- The UI events the `if submitted:` block can emit, in emission order. -/
inductive Event where
  | warnEmptyInput
  | geocodeCall (name : String)
  | errCityNotFound
  | showSuccess (place : Place)
  | fetchCall (lat lon : Option ℚ)
  | errFetchFailed
  | setBg (color : String)
  | showMetric (label value : String)
  | showChart (temps : List ℚ)
  | showTable (rows : List Row)
deriving DecidableEq

/-- The rendering tail of the submission block (lines 96-157), reached only
after a successful fetch: background CSS, the four metrics, the line chart
and the table. `data.get("hourly", {})` defaults to the empty dict. -/
def renderEvents (data : WeatherPayload) : List Event :=
  let d := currentDisplay data
  let hourly := data.hourly.getD ⟨none, none, none⟩
  [ .setBg d.bg
  , .showMetric "Temperature (°C)" d.tempMetric
  , .showMetric "Wind (km/h)" d.windMetric
  , .showMetric "Wind dir (°)" d.windDirMetric
  , .showMetric "Sky" d.skyMetric
  , .showChart (chartSeries hourly)
  , .showTable (niceTable hourly) ]

/-- The `if submitted:` block (lines 74-157) as a function from the raw user
input and the two network oracles to the emitted event trace. `st.stop()`
truncates the trace; a network call is recorded as an explicit event before
the answer of its oracle is inspected. -/
def runApp (city_input : String) (geo : HttpOutcome GeoBody)
    (wx : HttpOutcome WeatherPayload) : List Event :=
  if pyStrip city_input = "" then [.warnEmptyInput]
  else
    .geocodeCall (pyStrip city_input) ::
      match geocode_city (pyStrip city_input) geo with
      | none => [.errCityNotFound]
      | some place =>
        .showSuccess place :: .fetchCall place.lat place.lon ::
          match fetch_weather place.lat place.lon wx with
          | none => [.errFetchFailed]
          | some data => renderEvents data

/-! ## Theorems -/

theorem lookup_eq_none_of_not_mem_keys {α β : Type} [DecidableEq α]
    {l : List (α × β)} {c : α} (h : c ∉ l.map Prod.fst) : l.lookup c = none := by
  induction l with
  | nil => rfl
  | cons p t ih =>
    obtain ⟨k, v⟩ := p
    simp only [List.map_cons, List.mem_cons, not_or] at h
    have hk : (c == k) = false := by simpa using h.1
    simp [List.lookup, hk, ih h.2]

/-- C1: for every current temperature `t`, the banding yields the cold band
when `t < 10`, the mild band when `10 ≤ t < 25`, the hot band when `t ≥ 25`,
and the neutral default band for `None`; the boundary inputs 9.999, 10.0,
24.999 and 25.0 land in cold, mild, mild and hot respectively. -/
theorem bg_banding_spec :
    (∀ t : ℚ, t < 10 → bgColor (some t) = coldColor) ∧
    (∀ t : ℚ, 10 ≤ t → t < 25 → bgColor (some t) = mildColor) ∧
    (∀ t : ℚ, 25 ≤ t → bgColor (some t) = hotColor) ∧
    bgColor none = defaultColor ∧
    bgColor (some (9.999 : ℚ)) = coldColor ∧
    bgColor (some (10 : ℚ)) = mildColor ∧
    bgColor (some (24.999 : ℚ)) = mildColor ∧
    bgColor (some (25 : ℚ)) = hotColor := by
  refine ⟨?_, ?_, ?_, rfl, ?_, ?_, ?_, ?_⟩
  · intro t h
    simp [bgColor, h]
  · intro t h1 h2
    rw [bgColor, if_neg (by linarith), if_pos h2]
  · intro t h
    rw [bgColor, if_neg (by linarith), if_neg (by linarith)]
  · norm_num [bgColor]
  · norm_num [bgColor]
  · norm_num [bgColor]
  · norm_num [bgColor]

theorem bg_banding_spec_witness :
    (5 : ℚ) < 10 ∧ bgColor (some (5 : ℚ)) = coldColor :=
  ⟨by norm_num, bg_banding_spec.1 5 (by norm_num)⟩

/-- C2: for every integer key of the fixed weather-code table the translator
returns exactly the stored description, and for every integer not in the
table it returns "N/A"; the lookup is a total function (no failure mode). -/
theorem weathercode_lookup_spec :
    (∀ c s, (c, s) ∈ WEATHERCODE_TEXT → lookupWeathercode c = s) ∧
    (∀ c : Int, c ∉ WEATHERCODE_TEXT.map Prod.fst → lookupWeathercode c = "N/A") := by
  constructor
  · intro c s h
    fin_cases h <;> rfl
  · intro c h
    rw [lookupWeathercode, lookup_eq_none_of_not_mem_keys h, Option.getD_none]

theorem weathercode_lookup_spec_witness :
    ((2 : Int), "Partly cloudy") ∈ WEATHERCODE_TEXT ∧
    lookupWeathercode 2 = "Partly cloudy" ∧
    (7 : Int) ∉ WEATHERCODE_TEXT.map Prod.fst ∧
    lookupWeathercode 7 = "N/A" :=
  ⟨by decide, weathercode_lookup_spec.1 2 "Partly cloudy" (by decide),
   by decide, weathercode_lookup_spec.2 7 (by decide)⟩

/-- C3: the geocoder never lets an exception reach its caller: every
outcome on which the `try` body raises (transport failure, 4xx/5xx status
via `raise_for_status`, JSON-decoding failure) is caught and converted to
the same `None` sentinel that a genuine zero-result response produces. -/
theorem geocode_no_raise_spec :
    (∀ (name : String) (o : HttpOutcome GeoBody) (e : ReqError),
      geocodeAttempt o = .error e → geocode_city name o = none) ∧
    (∀ (name : String) (s : Nat), ¬ statusRaises s →
      geocode_city name (.response s (some ⟨some []⟩)) = none) := by
  constructor
  · intro name o e h
    simp [geocode_city, h]
  · intro name s hs
    simp [geocode_city, geocodeAttempt, if_neg hs]

theorem geocode_no_raise_spec_witness :
    geocodeAttempt HttpOutcome.transportError = Except.error ReqError.transport ∧
    geocode_city "Sydney" HttpOutcome.transportError = none ∧
    ¬ statusRaises 200 ∧
    geocode_city "Sydney" (HttpOutcome.response 200 (some ⟨some []⟩)) = none :=
  ⟨rfl, geocode_no_raise_spec.1 "Sydney" _ ReqError.transport rfl,
   by decide, geocode_no_raise_spec.2 "Sydney" 200 (by decide)⟩

/-- C4: on a non-raising response whose `results` array is non-empty, the
geocoder returns the record built from the first element (name, country,
admin1, latitude, longitude); when `results` is absent or empty it returns
`None`. -/
theorem geocode_first_result_spec :
    (∀ (name : String) (s : Nat) (data : GeoBody) (item : GeoItem)
        (rest : List GeoItem), ¬ statusRaises s →
      data.results = some (item :: rest) →
      geocode_city name (.response s (some data)) =
        some ⟨item.name, item.country, item.admin1, item.latitude, item.longitude⟩) ∧
    (∀ (name : String) (s : Nat) (data : GeoBody), ¬ statusRaises s →
      (data.results = none ∨ data.results = some []) →
      geocode_city name (.response s (some data)) = none) := by
  constructor
  · intro name s data item rest hs hres
    simp [geocode_city, geocodeAttempt, if_neg hs, hres]
  · intro name s data hs hres
    rcases hres with h | h <;> simp [geocode_city, geocodeAttempt, if_neg hs, h]

theorem geocode_first_result_spec_witness :
    ¬ statusRaises 200 ∧
    geocode_city "Sydney"
        (HttpOutcome.response 200
          (some ⟨some [⟨some "Sydney", some "Australia", some "New South Wales",
                        some (-33.8678 : ℚ), some (151.2073 : ℚ)⟩]⟩)) =
      some ⟨some "Sydney", some "Australia", some "New South Wales",
            some (-33.8678 : ℚ), some (151.2073 : ℚ)⟩ :=
  ⟨by decide,
   geocode_first_result_spec.1 "Sydney" 200 _ _ [] (by decide) rfl⟩

/-- C5: the forecast fetcher returns the parsed response payload unchanged
on success, and on a transport failure, a 4xx/5xx status, or a body that
fails to decode it returns the single `None` sentinel, never raising. -/
theorem fetch_weather_spec :
    (∀ (lat lon : Option ℚ) (s : Nat) (p : WeatherPayload), ¬ statusRaises s →
      fetch_weather lat lon (.response s (some p)) = some p) ∧
    (∀ lat lon : Option ℚ, fetch_weather lat lon .transportError = none) ∧
    (∀ (lat lon : Option ℚ) (s : Nat) (body : Option WeatherPayload),
      statusRaises s → fetch_weather lat lon (.response s body) = none) ∧
    (∀ (lat lon : Option ℚ) (s : Nat),
      fetch_weather lat lon (.response s none) = none) := by
  refine ⟨?_, fun _ _ => rfl, ?_, ?_⟩
  · intro lat lon s p hs
    simp [fetch_weather, if_neg hs]
  · intro lat lon s body hs
    simp [fetch_weather, if_pos hs]
  · intro lat lon s
    simp [fetch_weather]

theorem fetch_weather_spec_witness :
    ¬ statusRaises 200 ∧
    fetch_weather (some (-33.8678 : ℚ)) (some (151.2073 : ℚ))
        (HttpOutcome.response 200 (some ⟨some ⟨some 22, some 9, some 180, some 2⟩, none⟩)) =
      some ⟨some ⟨some 22, some 9, some 180, some 2⟩, none⟩ ∧
    statusRaises 503 ∧
    fetch_weather (some (-33.8678 : ℚ)) (some (151.2073 : ℚ))
        (HttpOutcome.response 503 none) = none :=
  ⟨by decide, fetch_weather_spec.1 _ _ 200 _ (by decide),
   by decide, fetch_weather_spec.2.2.1 _ _ 503 none (by decide)⟩

/-- C7: a submission whose input is empty or whitespace-only produces only
the warning event: the trace contains no geocoding call and no forecast
call. -/
theorem empty_input_spec :
    ∀ (input : String) (geo : HttpOutcome GeoBody) (wx : HttpOutcome WeatherPayload),
      pyStrip input = "" →
      runApp input geo wx = [Event.warnEmptyInput] ∧
      (∀ n, Event.geocodeCall n ∉ runApp input geo wx) ∧
      (∀ a b, Event.fetchCall a b ∉ runApp input geo wx) := by
  intro input geo wx h
  have hrun : runApp input geo wx = [Event.warnEmptyInput] := by
    simp [runApp, h]
  refine ⟨hrun, ?_, ?_⟩ <;> intro _ <;> simp [hrun]

theorem empty_input_spec_witness :
    pyStrip "  \t " = "" ∧
    runApp "  \t " HttpOutcome.transportError HttpOutcome.transportError =
      [Event.warnEmptyInput] :=
  ⟨by decide,
   (empty_input_spec "  \t " HttpOutcome.transportError HttpOutcome.transportError
      (by decide)).1⟩

/-- C8: the pipeline short-circuits at the first failing stage: a `None`
geocode yields only an error event after the geocode call (no fetch call);
a failed fetch after a successful geocode yields the fetch-failure event
and no chart or table event. -/
theorem pipeline_short_circuit_spec :
    (∀ (input : String) (geo : HttpOutcome GeoBody) (wx : HttpOutcome WeatherPayload),
      pyStrip input ≠ "" → geocode_city (pyStrip input) geo = none →
      runApp input geo wx = [Event.geocodeCall (pyStrip input), Event.errCityNotFound] ∧
      (∀ a b, Event.fetchCall a b ∉ runApp input geo wx)) ∧
    (∀ (input : String) (geo : HttpOutcome GeoBody) (wx : HttpOutcome WeatherPayload)
        (place : Place),
      pyStrip input ≠ "" → geocode_city (pyStrip input) geo = some place →
      fetch_weather place.lat place.lon wx = none →
      runApp input geo wx =
        [Event.geocodeCall (pyStrip input), Event.showSuccess place,
         Event.fetchCall place.lat place.lon, Event.errFetchFailed] ∧
      (∀ ts, Event.showChart ts ∉ runApp input geo wx) ∧
      (∀ rows, Event.showTable rows ∉ runApp input geo wx)) := by
  constructor
  · intro input geo wx hin hgeo
    have hrun : runApp input geo wx =
        [Event.geocodeCall (pyStrip input), Event.errCityNotFound] := by
      simp [runApp, hin, hgeo]
    refine ⟨hrun, ?_⟩
    intro a b
    simp [hrun]
  · intro input geo wx place hin hgeo hwx
    have hrun : runApp input geo wx =
        [Event.geocodeCall (pyStrip input), Event.showSuccess place,
         Event.fetchCall place.lat place.lon, Event.errFetchFailed] := by
      simp [runApp, hin, hgeo, hwx]
    refine ⟨hrun, ?_, ?_⟩ <;> intro _ <;> simp [hrun]

theorem pipeline_short_circuit_spec_witness :
    pyStrip "Sydney" ≠ "" ∧
    geocode_city "Sydney" HttpOutcome.transportError = none ∧
    runApp "Sydney" HttpOutcome.transportError HttpOutcome.transportError =
      [Event.geocodeCall "Sydney", Event.errCityNotFound] ∧
    geocode_city "Sydney"
        (HttpOutcome.response 200 (some ⟨some [⟨some "Sydney", some "Australia",
          none, some (1 : ℚ), some (2 : ℚ)⟩]⟩)) =
      some ⟨some "Sydney", some "Australia", none, some (1 : ℚ), some (2 : ℚ)⟩ ∧
    fetch_weather (some (1 : ℚ)) (some (2 : ℚ)) HttpOutcome.transportError = none ∧
    runApp "Sydney"
        (HttpOutcome.response 200 (some ⟨some [⟨some "Sydney", some "Australia",
          none, some (1 : ℚ), some (2 : ℚ)⟩]⟩))
        HttpOutcome.transportError =
      [Event.geocodeCall "Sydney",
       Event.showSuccess ⟨some "Sydney", some "Australia", none, some (1 : ℚ), some (2 : ℚ)⟩,
       Event.fetchCall (some (1 : ℚ)) (some (2 : ℚ)), Event.errFetchFailed] :=
  ⟨by decide, by decide,
   (pipeline_short_circuit_spec.1 "Sydney" HttpOutcome.transportError
      HttpOutcome.transportError (by decide) (by decide)).1,
   by decide, by decide,
   (pipeline_short_circuit_spec.2 "Sydney"
      (HttpOutcome.response 200 (some ⟨some [⟨some "Sydney", some "Australia",
        none, some (1 : ℚ), some (2 : ℚ)⟩]⟩))
      HttpOutcome.transportError
      ⟨some "Sydney", some "Australia", none, some (1 : ℚ), some (2 : ℚ)⟩
      (by decide) (by decide) (by decide)).1⟩

/-- C9: when `precipitation_probability` is absent from the hourly payload,
the table still has the rain-chance column, filled with `None` in every row
(the column is created, not omitted). -/
theorem rain_column_default_spec :
    ∀ hourly : Hourly, hourly.precipitation_probability = none →
      (niceTable hourly).map Row.rainChance =
        List.replicate (niceTable hourly).length none ∧
      (niceTable hourly).length =
        min 24 (min (hourly.time.getD []).length
          (hourly.temperature_2m.getD []).length) := by
  intro hourly h
  constructor
  · simp only [niceTable, df_24, h, List.map_take, List.map_map]
    simp [Function.comp_def, List.map_const']
  · simp [niceTable, df_24, h]

theorem rain_column_default_spec_witness :
    (Hourly.precipitation_probability
        ⟨some [⟨2024, 1, 1, 0, 0⟩], some [(20 : ℚ)], none⟩ = none) ∧
    (niceTable ⟨some [⟨2024, 1, 1, 0, 0⟩], some [(20 : ℚ)], none⟩).map Row.rainChance =
      List.replicate
        (niceTable ⟨some [⟨2024, 1, 1, 0, 0⟩], some [(20 : ℚ)], none⟩).length none :=
  ⟨rfl, (rain_column_default_spec ⟨some [⟨2024, 1, 1, 0, 0⟩], some [(20 : ℚ)], none⟩ rfl).1⟩

/-- C10: the current-conditions display is total over missing fields: a
payload without a `current_weather` object is treated as the empty record,
and each missing field degrades independently — missing weathercode renders
"N/A", missing temperature gives the white default background and an
em-dash metric, and missing wind speed/direction each render as an
em-dash. -/
theorem current_display_total_spec :
    (∀ data : WeatherPayload, data.current_weather = none →
      currentDisplay data = ⟨defaultColor, "—", "—", "—", "N/A"⟩ ∧
      currentDisplay data = currentDisplay ⟨some emptyCW, data.hourly⟩) ∧
    (∀ (data : WeatherPayload) (cw : CurrentWeather), data.current_weather = some cw →
      (cw.weathercode = none → (currentDisplay data).skyMetric = "N/A") ∧
      (cw.temperature = none → (currentDisplay data).bg = defaultColor ∧
        (currentDisplay data).tempMetric = "—") ∧
      (cw.windspeed = none → (currentDisplay data).windMetric = "—") ∧
      (cw.winddirection = none → (currentDisplay data).windDirMetric = "—")) := by
  constructor
  · intro data h
    constructor
    · simp [currentDisplay, h, emptyCW, bgColor, showNumOpt, weatherDesc]
    · simp [currentDisplay, h, emptyCW]
  · intro data cw h
    refine ⟨?_, ?_, ?_, ?_⟩
    · intro hc
      simp [currentDisplay, h, hc, weatherDesc]
    · intro ht
      constructor <;> simp [currentDisplay, h, ht, bgColor, showNumOpt]
    · intro hw
      simp [currentDisplay, h, hw, showNumOpt]
    · intro hd
      simp [currentDisplay, h, hd, showNumOpt]

theorem current_display_total_spec_witness :
    currentDisplay ⟨none, none⟩ = ⟨defaultColor, "—", "—", "—", "N/A"⟩ ∧
    (currentDisplay ⟨some ⟨none, some (9 : ℚ), none, none⟩, none⟩).skyMetric = "N/A" ∧
    (currentDisplay ⟨some ⟨none, some (9 : ℚ), none, none⟩, none⟩).bg = defaultColor :=
  ⟨((current_display_total_spec.1 ⟨none, none⟩) rfl).1,
   (current_display_total_spec.2 ⟨some ⟨none, some (9 : ℚ), none, none⟩, none⟩
      ⟨none, some (9 : ℚ), none, none⟩ rfl).1 rfl,
   ((current_display_total_spec.2 ⟨some ⟨none, some (9 : ℚ), none, none⟩, none⟩
      ⟨none, some (9 : ℚ), none, none⟩ rfl).2.1 rfl).1⟩

/-- The shape "YYYY-MM-DD HH:MM": sixteen characters, dashes after the year
and month fields, a space between date and time, a colon between hours and
minutes, digits everywhere else. -/
def isYmdHMFormat (s : String) : Prop :=
  s.data.length = 16 ∧
  s.data.getD 4 'x' = '-' ∧ s.data.getD 7 'x' = '-' ∧
  s.data.getD 10 'x' = ' ' ∧ s.data.getD 13 'x' = ':' ∧
  ∀ i ∈ ([0, 1, 2, 3, 5, 6, 8, 9, 11, 12, 14, 15] : List Nat),
    (s.data.getD i 'x').isDigit

theorem digitChar_isDigit (n : Nat) : (digitChar n).isDigit := by
  have h : n % 10 < 10 := Nat.mod_lt _ (by norm_num)
  unfold digitChar
  interval_cases h : (n % 10) <;> decide

theorem strftimeYmdHM_data (t : Timestamp) : (strftimeYmdHM t).data =
    [digitChar (t.year / 1000), digitChar (t.year / 100), digitChar (t.year / 10),
     digitChar t.year, '-', digitChar (t.month / 10), digitChar t.month, '-',
     digitChar (t.day / 10), digitChar t.day, ' ', digitChar (t.hour / 10),
     digitChar t.hour, ':', digitChar (t.minute / 10), digitChar t.minute] := rfl

theorem strftimeYmdHM_format (t : Timestamp) : isYmdHMFormat (strftimeYmdHM t) := by
  refine ⟨?_, ?_, ?_, ?_, ?_, ?_⟩
  · rw [strftimeYmdHM_data]; rfl
  · rw [strftimeYmdHM_data]; rfl
  · rw [strftimeYmdHM_data]; rfl
  · rw [strftimeYmdHM_data]; rfl
  · rw [strftimeYmdHM_data]; rfl
  · intro i hi
    rw [strftimeYmdHM_data]
    fin_cases hi <;> exact digitChar_isDigit _

theorem map_comp_fst_zip {α β γ : Type} (f : α → γ) (l1 : List α) (l2 : List β)
    (h : l1.length ≤ l2.length) :
    (l1.zip l2).map (fun p => f p.1) = l1.map f := by
  rw [show (fun p : α × β => f p.1) = f ∘ Prod.fst from rfl, ← List.map_map,
    List.map_fst_zip _ _ h]

theorem map_comp_snd_zip {α β γ : Type} (f : β → γ) (l1 : List α) (l2 : List β)
    (h : l2.length ≤ l1.length) :
    (l1.zip l2).map (fun p => f p.2) = l2.map f := by
  rw [show (fun p : α × β => f p.2) = f ∘ Prod.snd from rfl, ← List.map_map,
    List.map_snd_zip _ _ h]

/-- C6: the rendered table and chart contain exactly the first
`min 24 (length)` entries of the hourly series, in original order (for a
30-entry series, exactly the first 24), and every table timestamp is
formatted as "YYYY-MM-DD HH:MM". The length hypotheses mirror the pandas
requirement that DataFrame columns have equal length. -/
theorem hourly_take24_spec :
    ∀ (hourly : Hourly) (times : List Timestamp) (temps : List ℚ),
      hourly.time = some times → hourly.temperature_2m = some temps →
      temps.length = times.length →
      (∀ pops, hourly.precipitation_probability = some pops →
        pops.length = times.length) →
      ((niceTable hourly).map Row.localTime = (times.take 24).map strftimeYmdHM ∧
       (niceTable hourly).map Row.tempC = temps.take 24 ∧
       chartSeries hourly = temps.take 24 ∧
       (niceTable hourly).length = min 24 times.length ∧
       (chartSeries hourly).length = min 24 times.length ∧
       (times.length = 30 → (niceTable hourly).length = 24) ∧
       (∀ r ∈ niceTable hourly, isYmdHMFormat r.localTime)) := by
  intro hourly times temps h1 h2 hlen hpops
  have hfmt : ∀ r ∈ niceTable hourly, isYmdHMFormat r.localTime := by
    intro r hr
    rw [niceTable] at hr
    obtain ⟨x, _, rfl⟩ := List.mem_map.1 hr
    exact strftimeYmdHM_format x.1
  cases hp : hourly.precipitation_probability with
  | none =>
    have hdf : df_24 hourly =
        ((times.zip temps).map (fun p => (p.1, p.2, (none : Option ℚ)))).take 24 := by
      simp [df_24, h1, h2, hp]
    have hlt : (niceTable hourly).map Row.localTime = (times.take 24).map strftimeYmdHM := by
      simp only [niceTable, hdf, List.map_take, List.map_map, Function.comp_def]
      rw [map_comp_fst_zip strftimeYmdHM times temps (le_of_eq hlen.symm)]
    have htc : (niceTable hourly).map Row.tempC = temps.take 24 := by
      simp only [niceTable, hdf, List.map_take, List.map_map, Function.comp_def]
      rw [map_comp_snd_zip (fun x => x) times temps (le_of_eq hlen), List.map_id']
    have hch : chartSeries hourly = temps.take 24 := by
      simp only [chartSeries, hdf, List.map_take, List.map_map, Function.comp_def]
      rw [map_comp_snd_zip (fun x => x) times temps (le_of_eq hlen), List.map_id']
    have hln : (niceTable hourly).length = min 24 times.length := by
      simp [niceTable, hdf, hlen]
    refine ⟨hlt, htc, hch, hln, ?_, fun h30 => by omega, hfmt⟩
    · rw [hch, List.length_take, hlen]
  | some pops =>
    have hpl : pops.length = times.length := hpops pops hp
    have hdf : df_24 hourly =
        (((times.zip temps).zip pops).map (fun p => (p.1.1, p.1.2, p.2))).take 24 := by
      simp [df_24, h1, h2, hp]
    have hzl : (times.zip temps).length ≤ pops.length := by
      rw [List.length_zip]; omega
    have hlt : (niceTable hourly).map Row.localTime = (times.take 24).map strftimeYmdHM := by
      simp only [niceTable, hdf, List.map_take, List.map_map, Function.comp_def]
      rw [map_comp_fst_zip (fun q => strftimeYmdHM q.1) (times.zip temps) pops hzl,
        map_comp_fst_zip strftimeYmdHM times temps (le_of_eq hlen.symm)]
    have htc : (niceTable hourly).map Row.tempC = temps.take 24 := by
      simp only [niceTable, hdf, List.map_take, List.map_map, Function.comp_def]
      rw [map_comp_fst_zip (fun q => q.2) (times.zip temps) pops hzl,
        map_comp_snd_zip (fun x => x) times temps (le_of_eq hlen), List.map_id']
    have hch : chartSeries hourly = temps.take 24 := by
      simp only [chartSeries, hdf, List.map_take, List.map_map, Function.comp_def]
      rw [map_comp_fst_zip (fun q => q.2) (times.zip temps) pops hzl,
        map_comp_snd_zip (fun x => x) times temps (le_of_eq hlen), List.map_id']
    have hln : (niceTable hourly).length = min 24 times.length := by
      simp [niceTable, hdf, hlen, hpl]
    refine ⟨hlt, htc, hch, hln, ?_, fun h30 => by omega, hfmt⟩
    · rw [hch, List.length_take, hlen]

theorem hourly_take24_spec_witness :
    (List.replicate 30 (Timestamp.mk 2024 1 1 0 0)).length = 30 ∧
    (niceTable ⟨some (List.replicate 30 ⟨2024, 1, 1, 0, 0⟩),
      some (List.replicate 30 (20 : ℚ)), none⟩).length = 24 :=
  ⟨by simp,
   (hourly_take24_spec
      ⟨some (List.replicate 30 ⟨2024, 1, 1, 0, 0⟩), some (List.replicate 30 (20 : ℚ)), none⟩
      (List.replicate 30 ⟨2024, 1, 1, 0, 0⟩) (List.replicate 30 (20 : ℚ))
      rfl rfl (by simp) (by intro pops hpops; simp at hpops)).2.2.2.2.2.1 (by simp)⟩

end WeatherChecker
